/-
Verification development for the Sherlock deepfake-detection backend
(Bimidu/sherlock_deepfake_detection_using_DL).

Shallow embedding of the asynchronous task-processing pipeline:
  * `core/config.py`            → `Settings`
  * `services/detection_service.py` → `aggregateResults`, `runInferenceSync`,
                                      `mkFrameResults`, `detectDeepfake`
  * `services/video_processor.py`   → `extractFramesSync`
  * `services/task_manager.py`      → `createTask`, `updateTaskStatus`,
                                      `completeTask`, `failTask`, `activeTaskCount`
  * `services/results_storage.py`   → `saveResult`, `loadResult`
  * `api/routes/detection.py`       → `uploadVideo`, `processVideoBackground`

Modelling conventions:
  * Python floats are modelled as rationals (ℚ); `numpy.std`, which takes a
    real square root, is modelled by an arbitrary function parameter
    `sqrtFn : ℚ → ℚ` (no verified statement depends on its value).
  * Python's `round(x, n)` (banker's rounding, half to even) is `pyRound`.
  * `datetime.utcnow().isoformat()` is modelled by an explicit clock value
    `now : String`; the several clock reads inside one pipeline run are
    modelled by a single value.
  * Python dicts keyed by task id are association lists with
    insert-or-replace semantics (`dictInsert` / `dictLookup`).
  * Exceptions are modelled by `Except String`; the exact exception message
    texts are abbreviated (they carry no program logic).
-/
import Mathlib

namespace Sherlock

/-! ## Numeric helpers (numpy / Python built-ins) -/

/-- Python `int(q)`: truncation toward zero. -/
def ratTrunc (q : ℚ) : ℤ := q.num / (q.den : ℤ)

/-- Python `round` to an integer: round half to even (banker's rounding). -/
def roundHalfEven (q : ℚ) : ℤ :=
  let f := ⌊q⌋
  let r := q - (f : ℚ)
  if r < 1/2 then f
  else if 1/2 < r then f + 1
  else if f % 2 = 0 then f else f + 1

/-- Python `round(q, nd)`. -/
def pyRound (nd : ℕ) (q : ℚ) : ℚ :=
  (roundHalfEven (q * (10 : ℚ) ^ nd) : ℚ) / (10 : ℚ) ^ nd

/-- `numpy.mean` over a list of rationals (only ever applied to non-empty
lists in the code). -/
def npMean (l : List ℚ) : ℚ := l.sum / (l.length : ℚ)

/-! ## Configuration (`core/config.py`, class `Settings`) -/

/-- The configuration fields of `core/config.py` that the pipeline reads. -/
structure Settings where
  FRAME_EXTRACTION_RATE : ℕ
  MAX_FRAMES_PER_VIDEO : ℕ
  DEFAULT_MODEL : String
  MODEL_CONFIDENCE_THRESHOLD : ℚ
  BATCH_SIZE : ℕ
  MAX_CONCURRENT_TASKS : ℕ
deriving DecidableEq, Repr

/-- The default values declared in `core/config.py`. -/
def defaultSettings : Settings :=
  { FRAME_EXTRACTION_RATE := 1
    MAX_FRAMES_PER_VIDEO := 300
    DEFAULT_MODEL := "xception"
    MODEL_CONFIDENCE_THRESHOLD := 1/2
    BATCH_SIZE := 32
    MAX_CONCURRENT_TASKS := 10 }

/-! ## Data model: frames, detection results, aggregated summary -/

/-- A preprocessed video frame: a normalized pixel buffer (the code never
inspects its contents outside the model `predict` call). -/
abbrev Frame := List ℚ

/-- The `metadata` dict built by `VideoProcessor._extract_frames_sync`. -/
structure VideoMetadata where
  original_fps : ℚ
  total_frames : ℕ
  duration : ℚ
  resolution : ℕ × ℕ
  extracted_frames : ℕ
  extraction_rate : ℕ
  frame_interval : ℕ
deriving DecidableEq, Repr

/-- The dict returned by `VideoProcessor._extract_frames_sync`. -/
structure FramesData where
  frames : List Frame
  timestamps : List ℚ
  metadata : VideoMetadata
deriving DecidableEq, Repr

/-- One element of `frame_results` built in
`DetectionService.detect_deepfake` (a ScoredSample). -/
structure FrameResult where
  frame_index : ℕ
  timestamp : ℚ
  prediction : ℚ
  confidence : ℚ
  label : String
deriving DecidableEq, Repr

/-- The `detection_metadata` dict: the real shape from `detect_deepfake`,
or the mock shape built in `_process_video_background` on detection
failure. -/
inductive DetectionMetadata where
  | real (model_confidence_threshold : ℚ) (batch_size : ℕ)
  | mock (error : String)
deriving DecidableEq, Repr

/-- The dict returned by `DetectionService.detect_deepfake`. -/
structure DetectionResults where
  model_used : String
  total_frames : ℕ
  frame_results : List FrameResult
  video_metadata : VideoMetadata
  detection_metadata : DetectionMetadata
deriving DecidableEq, Repr

/-- The `statistics` sub-dict of the aggregated summary. -/
structure Statistics where
  total_frames : ℕ
  fake_frames : ℕ
  real_frames : ℕ
  fake_percentage : ℚ
  mean_prediction : ℚ
  std_prediction : ℚ
  mean_confidence : ℚ
deriving DecidableEq, Repr

/-- One reduced entry of `suspicious_frames`: exactly the four fields
timestamp / frame_index / fake_probability (score as a percentage) /
confidence (certainty as a percentage). -/
structure SuspiciousFrame where
  timestamp : ℚ
  frame_index : ℕ
  fake_probability : ℚ
  confidence : ℚ
deriving DecidableEq, Repr

/-- The `model_info` sub-dict of the aggregated summary. -/
structure ModelInfo where
  model_used : String
  threshold : ℚ
  total_frames_analyzed : ℕ
deriving DecidableEq, Repr

/-- The aggregated summary (Report) returned by
`DetectionService.aggregate_results`. -/
structure Summary where
  prediction : String
  confidence : ℚ
  fake_probability : ℚ
  statistics : Statistics
  suspicious_frames : List SuspiciousFrame
  model_info : ModelInfo
deriving DecidableEq, Repr

/-! ## Result Aggregator (`DetectionService.aggregate_results`) -/

/-- Insertion step of the stable descending sort on `prediction`
(Python `sorted(frame_results, key=lambda x: x["prediction"], reverse=True)`
is stable: elements with equal keys keep their original relative order). -/
def insertDescPred (x : FrameResult) : List FrameResult → List FrameResult
  | [] => [x]
  | y :: ys => if y.prediction ≤ x.prediction then x :: y :: ys else y :: insertDescPred x ys

/-- Stable descending sort on `prediction`, modelling Python's stable
`sorted(..., reverse=True)`. -/
def sortDescPred : List FrameResult → List FrameResult
  | [] => []
  | x :: xs => insertDescPred x (sortDescPred xs)

/-- `suspicious_frames = sorted(frame_results, key=prediction, reverse=True)[:5]`. -/
def topSuspiciousFrames (frame_results : List FrameResult) : List FrameResult :=
  (sortDescPred frame_results).take 5

/-- The per-entry reduction applied to each suspicious frame in
`aggregate_results`. -/
def reduceSuspicious (r : FrameResult) : SuspiciousFrame :=
  { timestamp := r.timestamp
    frame_index := r.frame_index
    fake_probability := pyRound 2 (r.prediction * 100)
    confidence := pyRound 2 (r.confidence * 100) }

/-- `DetectionService.aggregate_results` (detection_service.py lines
197-286).  `numpy.average(predictions, weights=confidences)` raises
`ZeroDivisionError` when the weights sum to zero; the surrounding
`except` re-raises everything as `InferenceError` with a
"Result aggregation failed" message. -/
def aggregateResults (cfg : Settings) (sqrtFn : ℚ → ℚ) (dr : DetectionResults) :
    Except String Summary :=
  let frame_results := dr.frame_results
  if frame_results.isEmpty then
    Except.error "Result aggregation failed: No frame results to aggregate"
  else
    let predictions := frame_results.map FrameResult.prediction
    let confidences := frame_results.map FrameResult.confidence
    let mean_prediction := npMean predictions
    let std_prediction := sqrtFn (npMean (predictions.map (fun x => (x - mean_prediction) ^ 2)))
    let mean_confidence := npMean confidences
    let fake_frames := frame_results.filter (fun r => r.label == "fake")
    let real_frames := frame_results.filter (fun r => r.label == "real")
    let fake_percentage := (fake_frames.length : ℚ) / (frame_results.length : ℚ) * 100
    if confidences.sum = 0 then
      Except.error "Result aggregation failed: Weights sum to zero"
    else
      let weighted_prediction :=
        ((predictions.zip confidences).map (fun p => p.1 * p.2)).sum / confidences.sum
      let final_label :=
        if weighted_prediction > cfg.MODEL_CONFIDENCE_THRESHOLD then "fake" else "real"
      let final_confidence := mean_confidence * 100
      Except.ok
        { prediction := final_label
          confidence := pyRound 2 final_confidence
          fake_probability := pyRound 2 (weighted_prediction * 100)
          statistics :=
            { total_frames := frame_results.length
              fake_frames := fake_frames.length
              real_frames := real_frames.length
              fake_percentage := pyRound 2 fake_percentage
              mean_prediction := pyRound 4 mean_prediction
              std_prediction := pyRound 4 std_prediction
              mean_confidence := pyRound 4 mean_confidence }
          suspicious_frames := (topSuspiciousFrames frame_results).map reduceSuspicious
          model_info :=
            { model_used := dr.model_used
              threshold := cfg.MODEL_CONFIDENCE_THRESHOLD
              total_frames_analyzed := dr.total_frames } }

/-! ## Scoring stage (`DetectionService._run_inference_sync` / `detect_deepfake`) -/

/-- The batches visited by `for i in range(0, len(frames), batch_size):
batch = frames[i:i + batch_size]` — successive chunks of size `bs`
(Python requires `bs ≥ 1`; `range` with step 0 raises). -/
def chunks {α : Type} (bs : ℕ) : List α → List (List α)
  | [] => []
  | x :: xs => (x :: xs.take (bs - 1)) :: chunks bs (xs.drop (bs - 1))
termination_by l => l.length
decreasing_by
  simp only [List.length_drop, List.length_cons]
  omega

/-- `DetectionService._run_inference_sync`: run `detector.predict` on each
batch and concatenate (`predictions.extend(batch_predictions)`).  The
external model forward pass is the parameter `predict`. -/
def runInferenceSync (predict : List Frame → List (ℚ × ℚ)) (bs : ℕ)
    (frames : List Frame) : List (ℚ × ℚ) :=
  ((chunks bs frames).map predict).flatten

/-- The `frame_results` list built in `DetectionService.detect_deepfake`:
`for i, (prediction, timestamp) in enumerate(zip(predictions, timestamps))`. -/
def mkFrameResults (cfg : Settings) (predictions : List (ℚ × ℚ))
    (timestamps : List ℚ) : List FrameResult :=
  ((predictions.zip timestamps).enum).map (fun p =>
    { frame_index := p.1
      timestamp := p.2.2
      prediction := p.2.1.1
      confidence := p.2.1.2
      label := if p.2.1.1 > cfg.MODEL_CONFIDENCE_THRESHOLD then "fake" else "real" })

/-- `DetectionService.detect_deepfake`.  `loadedModels` is the set of
already-loaded detectors (`self.models`); `loadOk` is the outcome of the
external late-load attempt (`self._load_model`) for an unknown model;
`predict` is the loaded detector's forward pass.  `model_name = None`
falls back to `settings.DEFAULT_MODEL` (`model_name or
settings.DEFAULT_MODEL`). -/
def detectDeepfake (cfg : Settings) (loadedModels : List String) (loadOk : Bool)
    (predict : List Frame → List (ℚ × ℚ)) (fd : FramesData)
    (model_name : Option String) : Except String DetectionResults :=
  let name := model_name.getD cfg.DEFAULT_MODEL
  if ¬ loadedModels.contains name ∧ loadOk = false then
    Except.error ("Model " ++ name ++ " not available")
  else if fd.frames.isEmpty then
    Except.error "Detection failed: No frames to analyze"
  else
    Except.ok
      { model_used := name
        total_frames := fd.frames.length
        frame_results :=
          mkFrameResults cfg (runInferenceSync predict cfg.BATCH_SIZE fd.frames) fd.timestamps
        video_metadata := fd.metadata
        detection_metadata := .real cfg.MODEL_CONFIDENCE_THRESHOLD cfg.BATCH_SIZE }

/-! ## Extraction stage (`VideoProcessor._extract_frames_sync`) -/

/-- Abstraction of a media file as seen through the OpenCV calls the code
makes: `os.path.exists`, `cap.isOpened`, the reported properties, and the
sequence of frames that successive `cap.read()` calls yield. -/
structure VideoFile where
  file_exists : Bool
  opens : Bool
  fps : ℚ
  frame_count : ℕ
  width : ℕ
  height : ℕ
  frames : List Frame
deriving DecidableEq, Repr

/-- The `while True: cap.read()` loop of `_extract_frames_sync`: walk the
readable frames, keep every `interval`-th one (preprocessed), record its
timestamp `frame_number / fps`, and break once `MAX_FRAMES_PER_VIDEO`
frames have been kept.  (For `fps = 0` Python would raise on the first
timestamp; rationals give `q / 0 = 0` instead — no verified statement
touches that case.) -/
def extractLoop (cfg : Settings) (preprocess : Frame → Frame) (fps : ℚ)
    (interval : ℕ) : List Frame → ℕ → ℕ → List Frame × List ℚ
  | [], _, _ => ([], [])
  | f :: rest, frame_number, extracted =>
    if frame_number % interval = 0 then
      if cfg.MAX_FRAMES_PER_VIDEO ≤ extracted then ([], [])
      else
        let tail := extractLoop cfg preprocess fps interval rest (frame_number + 1) (extracted + 1)
        (preprocess f :: tail.1, ((frame_number : ℚ) / fps) :: tail.2)
    else extractLoop cfg preprocess fps interval rest (frame_number + 1) extracted

/-- `VideoProcessor._extract_frames_sync` (video_processor.py lines
65-140).  The cv2-level frame preprocessing (`_preprocess_frame`) is the
external parameter `preprocess`. -/
def extractFramesSync (cfg : Settings) (preprocess : Frame → Frame)
    (v : VideoFile) : Except String FramesData :=
  if v.file_exists = false then
    Except.error "Video file not found"
  else if v.opens = false then
    Except.error "Could not open video file"
  else
    let fps := v.fps
    let duration := if 0 < fps then (v.frame_count : ℚ) / fps else 0
    let frame_interval := (max 1 (ratTrunc (fps / (cfg.FRAME_EXTRACTION_RATE : ℚ)))).toNat
    let ex := extractLoop cfg preprocess fps frame_interval v.frames 0 0
    Except.ok
      { frames := ex.1
        timestamps := ex.2
        metadata :=
          { original_fps := fps
            total_frames := v.frame_count
            duration := duration
            resolution := (v.width, v.height)
            extracted_frames := ex.1.length
            extraction_rate := cfg.FRAME_EXTRACTION_RATE
            frame_interval := frame_interval } }

/-! ## Task Registry (`services/task_manager.py`, class `TaskManager`) -/

/-- One task record: the dict stored in `TaskManager.tasks`.  The fields
are the keys the code reads or writes; keys that are absent in Python
before first assignment are `Option`s. -/
structure TaskRec where
  task_id : String
  filename : String
  file_path : String
  model_name : String
  status : String
  progress : ℕ
  created_at : String
  updated_at : String
  results : Option Summary
  completed_at : Option String
  error : Option String
  failed_at : Option String
deriving DecidableEq, Repr

/-- The in-memory registry `TaskManager.tasks : Dict[str, ...]`. -/
abbrev TaskMap := List (String × TaskRec)

/-- Python dict assignment `tasks[k] = v`: replace in place if the key is
present, append otherwise. -/
def dictInsert : TaskMap → String → TaskRec → TaskMap
  | [], k, v => [(k, v)]
  | (k0, v0) :: rest, k, v =>
    if k0 = k then (k, v) :: rest else (k0, v0) :: dictInsert rest k v

/-- Python dict lookup `tasks.get(k)`. -/
def dictLookup : TaskMap → String → Option TaskRec
  | [], _ => none
  | (k0, v0) :: rest, k => if k0 = k then some v0 else dictLookup rest k

/-- The `additional_data` dicts that the code merges into a task record:
either nothing, the completion payload, or the failure payload. -/
inductive AddData where
  | none
  | completedData (results : Summary) (completed_at : String)
  | failedData (error : String) (failed_at : String)
deriving DecidableEq, Repr

/-- `self.tasks[task_id].update(additional_data)` for the shapes above. -/
def applyAdd (t : TaskRec) : AddData → TaskRec
  | .none => t
  | .completedData r c => { t with results := some r, completed_at := some c }
  | .failedData e f => { t with error := some e, failed_at := some f }

/-- `TaskManager.create_task` (task_manager.py lines 27-48): store
`{**task_data, created_at, updated_at, status: "created", progress: 0}` —
the later keys win over `task_data`, and an existing record under the
same id is silently replaced (plain dict assignment, no duplicate
check). -/
def createTask (tasks : TaskMap) (task_id : String) (task_data : TaskRec)
    (now : String) : TaskMap :=
  dictInsert tasks task_id
    { task_data with created_at := now, updated_at := now, status := "created", progress := 0 }

/-- `TaskManager.update_task_status` (task_manager.py lines 63-92):
`TaskNotFoundError` if absent; otherwise set status, bump `updated_at`,
optionally set progress, merge `additional_data`. -/
def updateTaskStatus (tasks : TaskMap) (task_id status : String)
    (progress : Option ℕ) (add : AddData) (now : String) : Except String TaskMap :=
  match dictLookup tasks task_id with
  | Option.none => Except.error ("Task " ++ task_id ++ " not found")
  | some t =>
    let t1 : TaskRec := { t with status := status, updated_at := now }
    let t2 : TaskRec := match progress with | Option.none => t1 | some p => { t1 with progress := p }
    Except.ok (dictInsert tasks task_id (applyAdd t2 add))

/-- `TaskManager.complete_task`: status `completed`, progress 100, merge
`results` and `completed_at`. -/
def completeTask (tasks : TaskMap) (task_id : String) (results : Summary)
    (now : String) : Except String TaskMap :=
  updateTaskStatus tasks task_id "completed" (some 100) (.completedData results now) now

/-- `TaskManager.fail_task`: status `failed`, no progress argument, merge
`error` and `failed_at`. -/
def failTask (tasks : TaskMap) (task_id error : String) (now : String) :
    Except String TaskMap :=
  updateTaskStatus tasks task_id "failed" Option.none (.failedData error now) now

/-- `TaskManager.get_active_task_count`: tasks whose status is in
`["created", "uploaded", "processing"]`. -/
def activeTaskCount (tasks : TaskMap) : ℕ :=
  tasks.countP (fun p => ["created", "uploaded", "processing"].contains p.2.status)

/-! ## Durable Result Store (`services/results_storage.py`) -/

/-- One stored result file: the `storage_data` dict written by
`ResultsStorage.save_result`, together with the file name it is stored
under (`{timestamp}_{task_id}.json`).  The aggregated summary has neither
a top-level `video_info` nor a top-level `model_used` key, so both
`.get(..., "unknown")` defaults apply. -/
structure StoredRecord where
  file_name : String
  task_id : String
  timestamp : String
  filename : String
  model_used : String
  results : Summary
deriving DecidableEq, Repr

/-- The storage directory: the list of stored records, in save order
(the order `glob` visits them in is filesystem-defined; every record in
the directory was written by `save_result`, so all file names match the
`*_*.json` glob pattern by construction). -/
abbrev Store := List StoredRecord

/-- Python substring test `needle in hay`. -/
def strInfix (needle hay : String) : Bool := decide (needle.data <:+: hay.data)

/-- `ResultsStorage.save_result` (results_storage.py lines 27-62): each
save appends a fresh immutable record named `{timestamp}_{task_id}.json`. -/
def saveResult (store : Store) (task_id : String) (result_data : Summary)
    (now : String) : Store :=
  store ++
    [{ file_name := now ++ "_" ++ task_id ++ ".json"
       task_id := task_id
       timestamp := now
       filename := "unknown"
       model_used := "unknown"
       results := result_data }]

/-- `ResultsStorage.load_result` (results_storage.py lines 64-88): scan
the directory; for each file whose name contains `task_id`, parse it and
return it if its stored `task_id` field matches; otherwise keep
scanning. -/
def loadResult : Store → String → Option StoredRecord
  | [], _ => none
  | rec :: rest, task_id =>
    if strInfix task_id rec.file_name && rec.task_id == task_id then some rec
    else loadResult rest task_id

/-! ## Pipeline Orchestrator and Admission Controller (`api/routes/detection.py`) -/

/-- The admission check and task creation of the `upload_video` route
(detection.py lines 66-94): reject with `ResourceLimitError` when
`active >= MAX_CONCURRENT_TASKS`, otherwise create the task record (file
validation and the disk write of the upload are external and precede
this fragment). -/
def uploadVideo (cfg : Settings) (tasks : TaskMap)
    (task_id filename file_path model_name now : String) : Except String TaskMap :=
  if cfg.MAX_CONCURRENT_TASKS ≤ activeTaskCount tasks then
    Except.error ("Maximum concurrent tasks (" ++ toString cfg.MAX_CONCURRENT_TASKS ++
      ") exceeded. Please try again later.")
  else
    Except.ok (createTask tasks task_id
      { task_id := task_id
        filename := filename
        file_path := file_path
        model_name := model_name
        status := "uploaded"
        progress := 0
        created_at := now
        updated_at := now
        results := Option.none
        completed_at := Option.none
        error := Option.none
        failed_at := Option.none }
      now)

/-- The mock `detection_results` built in `_process_video_background`
when `detect_deepfake` raises (detection.py lines 428-438): empty
`frame_results`, `total_frames` = number of extracted frames. -/
def mockDetectionResults (model_name : String) (fd : FramesData) (err : String) :
    DetectionResults :=
  { model_used := model_name
    total_frames := fd.frames.length
    frame_results := []
    video_metadata := fd.metadata
    detection_metadata := .mock err }

/-- The minimal fallback report built in `_process_video_background` when
`aggregate_results` raises (detection.py lines 447-469): hard-coded
all-zero statistics, `threshold = 0.5`, `total_frames_analyzed = 0`. -/
def minimalAggregatedResults (model_name : String) : Summary :=
  { prediction := "uncertain"
    confidence := 0
    fake_probability := 0
    statistics :=
      { total_frames := 0
        fake_frames := 0
        real_frames := 0
        fake_percentage := 0
        mean_prediction := 0
        std_prediction := 0
        mean_confidence := 0 }
    suspicious_frames := []
    model_info :=
      { model_used := model_name
        threshold := 1/2
        total_frames_analyzed := 0 } }

/-- The detection stage of `_process_video_background` with its
`except` handler: a failed `detect_deepfake` call degrades to the mock
results instead of failing the task. -/
def detectionStep (detectRes : FramesData → Except String DetectionResults)
    (model_name : String) (fd : FramesData) : DetectionResults :=
  match detectRes fd with
  | Except.ok dr => dr
  | Except.error e => mockDetectionResults model_name fd e

/-- The aggregation stage of `_process_video_background` with its
`except` handler: a failed `aggregate_results` call degrades to the
minimal fallback report. -/
def aggregationStep (cfg : Settings) (sqrtFn : ℚ → ℚ) (model_name : String)
    (dr : DetectionResults) : Summary :=
  match aggregateResults cfg sqrtFn dr with
  | Except.ok s => s
  | Except.error _ => minimalAggregatedResults model_name

/-- The outer `except` of `_process_video_background`: `fail_task`, itself
guarded by an inner `except` that swallows a `TaskNotFoundError` (the
registry write is best-effort once the task is gone). -/
def failTaskSafe (tasks : TaskMap) (task_id err now : String) : TaskMap :=
  match failTask tasks task_id err now with
  | Except.ok t => t
  | Except.error _ => tasks

/-- `_process_video_background` (detection.py lines 396-501): the full
pipeline run over the registry and the result store.  The two external
capability outcomes are parameters: `extractRes` (frame extraction) and
`detectRes` (scoring).  The `finally` block only deletes the temporary
upload file, which is outside the modelled state. -/
def processVideoBackground (cfg : Settings) (sqrtFn : ℚ → ℚ)
    (extractRes : Except String FramesData)
    (detectRes : FramesData → Except String DetectionResults)
    (tasks : TaskMap) (store : Store) (task_id model_name now : String) :
    TaskMap × Store :=
  match updateTaskStatus tasks task_id "processing" (some 10) AddData.none now with
  | Except.error e => (failTaskSafe tasks task_id ("Processing failed: " ++ e) now, store)
  | Except.ok tasks1 =>
    match extractRes with
    | Except.error e =>
      (failTaskSafe tasks1 task_id ("Processing failed: Frame extraction failed: " ++ e) now,
       store)
    | Except.ok fd =>
      match updateTaskStatus tasks1 task_id "processing" (some 30) AddData.none now with
      | Except.error e => (failTaskSafe tasks1 task_id ("Processing failed: " ++ e) now, store)
      | Except.ok tasks2 =>
        let detection_results := detectionStep detectRes model_name fd
        match updateTaskStatus tasks2 task_id "processing" (some 80) AddData.none now with
        | Except.error e => (failTaskSafe tasks2 task_id ("Processing failed: " ++ e) now, store)
        | Except.ok tasks3 =>
          let aggregated := aggregationStep cfg sqrtFn model_name detection_results
          match completeTask tasks3 task_id aggregated now with
          | Except.error e =>
            (failTaskSafe tasks3 task_id ("Processing failed: " ++ e) now, store)
          | Except.ok tasks4 => (tasks4, saveResult store task_id aggregated now)

/-! ## Registry lemmas -/

theorem dictLookup_insert_self (tasks : TaskMap) (k : String) (v : TaskRec) :
    dictLookup (dictInsert tasks k v) k = some v := by
  induction tasks with
  | nil => simp [dictInsert, dictLookup]
  | cons p rest ih =>
    obtain ⟨k0, v0⟩ := p
    by_cases h : k0 = k
    · simp [dictInsert, dictLookup, h]
    · simp [dictInsert, dictLookup, h, ih]

theorem dictLookup_insert_ne (tasks : TaskMap) (k k' : String) (v : TaskRec)
    (h : k' ≠ k) : dictLookup (dictInsert tasks k v) k' = dictLookup tasks k' := by
  induction tasks with
  | nil => simp [dictInsert, dictLookup, Ne.symm h]
  | cons p rest ih =>
    obtain ⟨k0, v0⟩ := p
    by_cases h0 : k0 = k
    · subst h0
      simp [dictInsert, dictLookup, Ne.symm h]
    · simp only [dictInsert, if_neg h0]
      by_cases h1 : k0 = k'
      · simp [dictLookup, h1]
      · simp [dictLookup, h1, ih]

theorem updateTaskStatus_some (tasks : TaskMap) (task_id status : String)
    (p : ℕ) (add : AddData) (now : String) (t : TaskRec)
    (h : dictLookup tasks task_id = some t) :
    updateTaskStatus tasks task_id status (some p) add now =
      Except.ok (dictInsert tasks task_id
        (applyAdd { t with status := status, updated_at := now, progress := p } add)) := by
  simp [updateTaskStatus, h]

theorem updateTaskStatus_none (tasks : TaskMap) (task_id status : String)
    (add : AddData) (now : String) (t : TaskRec)
    (h : dictLookup tasks task_id = some t) :
    updateTaskStatus tasks task_id status Option.none add now =
      Except.ok (dictInsert tasks task_id
        (applyAdd { t with status := status, updated_at := now } add)) := by
  simp [updateTaskStatus, h]

/-! ## Claim C2 — admission control -/

/-- Claim C2: a submission is rejected with a capacity-exceeded error and
no new task record is created exactly when the number of registry tasks
with status in {created, uploaded, processing} is at least the configured
`MAX_CONCURRENT_TASKS` ceiling; otherwise it is admitted and a task
record is created under the new id. -/
theorem C2_admission_control (cfg : Settings) (tasks : TaskMap)
    (task_id filename file_path model_name now : String) :
    (cfg.MAX_CONCURRENT_TASKS ≤ activeTaskCount tasks →
      uploadVideo cfg tasks task_id filename file_path model_name now =
        Except.error ("Maximum concurrent tasks (" ++ toString cfg.MAX_CONCURRENT_TASKS ++
          ") exceeded. Please try again later.")) ∧
    (activeTaskCount tasks < cfg.MAX_CONCURRENT_TASKS →
      ∃ tasks2,
        uploadVideo cfg tasks task_id filename file_path model_name now = Except.ok tasks2 ∧
        dictLookup tasks2 task_id = some
          { task_id := task_id, filename := filename, file_path := file_path,
            model_name := model_name, status := "created", progress := 0,
            created_at := now, updated_at := now, results := Option.none,
            completed_at := Option.none, error := Option.none, failed_at := Option.none }) := by
  constructor
  · intro h
    simp [uploadVideo, h]
  · intro h
    exact ⟨createTask tasks task_id
      { task_id := task_id, filename := filename, file_path := file_path,
        model_name := model_name, status := "uploaded", progress := 0,
        created_at := now, updated_at := now, results := Option.none,
        completed_at := Option.none, error := Option.none, failed_at := Option.none } now,
      by simp [uploadVideo, Nat.not_le.mpr h],
      by simp [createTask, dictLookup_insert_self]⟩

/-- Witness for C2 at concrete inputs: a zero-capacity configuration
rejects the submission, and the default configuration over an empty
registry admits it. -/
theorem C2_witness :
    (uploadVideo { defaultSettings with MAX_CONCURRENT_TASKS := 0 } [] "t" "f.mp4" "/up/f.mp4"
        "xception" "T0" =
      Except.error "Maximum concurrent tasks (0) exceeded. Please try again later.") ∧
    (∃ tasks2,
      uploadVideo defaultSettings [] "t" "f.mp4" "/up/f.mp4" "xception" "T0" =
        Except.ok tasks2 ∧
      dictLookup tasks2 "t" = some
        { task_id := "t", filename := "f.mp4", file_path := "/up/f.mp4",
          model_name := "xception", status := "created", progress := 0,
          created_at := "T0", updated_at := "T0", results := Option.none,
          completed_at := Option.none, error := Option.none, failed_at := Option.none }) :=
  ⟨(C2_admission_control { defaultSettings with MAX_CONCURRENT_TASKS := 0 } [] "t" "f.mp4"
      "/up/f.mp4" "xception" "T0").1 (by decide),
   (C2_admission_control defaultSettings [] "t" "f.mp4" "/up/f.mp4" "xception" "T0").2
      (by decide)⟩

/-! ## Claim C3 — duplicate task ids -/

/-- Existing record used by the C3 counterexample. -/
def taskRecC3 : TaskRec :=
  { task_id := "t1", filename := "a.mp4", file_path := "/up/a.mp4",
    model_name := "xception", status := "completed", progress := 100,
    created_at := "T0", updated_at := "T0", results := Option.none,
    completed_at := some "T0", error := Option.none, failed_at := Option.none }

/-- New initial data used by the C3 counterexample. -/
def taskDataC3 : TaskRec :=
  { taskRecC3 with filename := "b.mp4", status := "uploaded", progress := 0 }

/-- Counterexample to C3 as stated: creating a task under an id already
present in the registry does not fail with a duplicate-id error — it
silently replaces the existing record (which is therefore not left
unchanged). -/
theorem C3_counterexample :
    dictLookup (createTask [("t1", taskRecC3)] "t1" taskDataC3 "T1") "t1" ≠ some taskRecC3 ∧
    dictLookup (createTask [("t1", taskRecC3)] "t1" taskDataC3 "T1") "t1" =
      some { taskDataC3 with created_at := "T1", updated_at := "T1", status := "created", progress := 0 } := by
  constructor
  · decide
  · decide

/-- Claim C3 as amended: `create_task` never fails on a duplicate id; it
always succeeds, storing the new initial record under the id (silently
overwriting any existing record) while leaving every other key
untouched. -/
theorem C3_create_overwrites (tasks : TaskMap) (task_id : String)
    (data : TaskRec) (now : String) :
    dictLookup (createTask tasks task_id data now) task_id =
      some { data with created_at := now, updated_at := now, status := "created", progress := 0 } ∧
    ∀ k, k ≠ task_id →
      dictLookup (createTask tasks task_id data now) k = dictLookup tasks k := by
  refine ⟨?_, ?_⟩
  · simp [createTask, dictLookup_insert_self]
  · intro k hk
    simp [createTask, dictLookup_insert_ne _ _ _ _ hk]

/-- Witness for the amended C3 at concrete inputs. -/
theorem C3_witness :
    dictLookup (createTask [] "t" taskDataC3 "T2") "t" =
      some { taskDataC3 with created_at := "T2", updated_at := "T2", status := "created", progress := 0 } ∧
    dictLookup (createTask [] "t" taskDataC3 "T2") "u" = dictLookup [] "u" :=
  ⟨(C3_create_overwrites [] "t" taskDataC3 "T2").1,
   (C3_create_overwrites [] "t" taskDataC3 "T2").2 "u" (by decide)⟩

/-! ## Claim C8 — fail_task frame effect -/

/-- Existing record used by the C8 counterexample and witness. -/
def taskRecC8 : TaskRec :=
  { task_id := "t8", filename := "v.mp4", file_path := "/up/v.mp4",
    model_name := "mesonet", status := "processing", progress := 55,
    created_at := "T0", updated_at := "T0", results := Option.none,
    completed_at := Option.none, error := Option.none, failed_at := Option.none }

/-- Counterexample to C8 as stated: `fail_task` does leave `progress`
untouched, but it does not leave every other previously stored field
unchanged — `updated_at` is bumped to the failure time. -/
theorem C8_counterexample :
    failTask [("t8", taskRecC8)] "t8" "boom" "T1" =
      Except.ok [("t8", { taskRecC8 with status := "failed", updated_at := "T1", error := some "boom", failed_at := some "T1" })] ∧
    ({ taskRecC8 with status := "failed", updated_at := "T1", error := some "boom", failed_at := some "T1" } : TaskRec).updated_at ≠
      taskRecC8.updated_at := by
  constructor
  · rfl
  · decide

/-- Claim C8 as amended: for every existing task, `fail_task` sets
status `failed`, records the error message and the failure timestamp,
bumps `updated_at`, and changes nothing else — in particular `progress`
keeps its pre-failure value (it is not reset to 0). -/
theorem C8_fail_task (tasks : TaskMap) (task_id err now : String) (t : TaskRec)
    (h : dictLookup tasks task_id = some t) :
    failTask tasks task_id err now =
      Except.ok (dictInsert tasks task_id
        { t with status := "failed", updated_at := now, error := some err, failed_at := some now }) ∧
    ({ t with status := "failed", updated_at := now, error := some err, failed_at := some now } : TaskRec).progress =
      t.progress := by
  constructor
  · simp [failTask, updateTaskStatus_none _ _ _ _ _ _ h, applyAdd]
  · rfl

/-- Witness for the amended C8 at a concrete registry. -/
theorem C8_witness :
    failTask [("t8", taskRecC8)] "t8" "x" "T2" =
      Except.ok (dictInsert [("t8", taskRecC8)] "t8"
        { taskRecC8 with status := "failed", updated_at := "T2", error := some "x", failed_at := some "T2" }) ∧
    ({ taskRecC8 with status := "failed", updated_at := "T2", error := some "x", failed_at := some "T2" } : TaskRec).progress =
      taskRecC8.progress :=
  C8_fail_task [("t8", taskRecC8)] "t8" "x" "T2" taskRecC8 (by decide)

/-! ## Claim C9 — durable store round-trip -/

/-- The file name written by `save_result` contains the task id as a
substring, so the `task_id in file_path.name` scan finds it. -/
theorem strInfix_save_name (task_id now : String) :
    strInfix task_id (now ++ "_" ++ task_id ++ ".json") = true := by
  simp only [strInfix, decide_eq_true_eq]
  exact ⟨(now ++ "_").data, ".json".data, by simp [String.data_append]⟩

/-- Claim C9: if `task_id` is not already the stored id of any record in
the store (unique-id generation upstream), then after
`save(task_id, report)` a `load(task_id)` finds the freshly saved record,
whose `results` field equals the saved report in all fields. -/
theorem C9_roundtrip (store : Store) (task_id : String) (report : Summary)
    (now : String) (h : ∀ rec ∈ store, rec.task_id ≠ task_id) :
    ∃ rec, loadResult (saveResult store task_id report now) task_id = some rec ∧
      rec.results = report ∧ rec.task_id = task_id ∧ rec.timestamp = now := by
  induction store with
  | nil =>
    refine ⟨{ file_name := now ++ "_" ++ task_id ++ ".json", task_id := task_id,
              timestamp := now, filename := "unknown", model_used := "unknown",
              results := report }, ?_, rfl, rfl, rfl⟩
    simp [saveResult, loadResult, strInfix_save_name]
  | cons r rest ih =>
    have hr : r.task_id ≠ task_id := h r (List.mem_cons_self r rest)
    have hrest : ∀ rec ∈ rest, rec.task_id ≠ task_id := fun rec hm => h rec (List.mem_cons_of_mem r hm)
    obtain ⟨rec, hload, hres, hid, hts⟩ := ih hrest
    refine ⟨rec, ?_, hres, hid, hts⟩
    have hbeq : (r.task_id == task_id) = false := beq_eq_false_iff_ne.mpr hr
    simpa [saveResult, loadResult, hbeq] using hload

/-- Witness for C9: saving into an empty store and loading back. -/
theorem C9_witness :
    ∃ rec, loadResult (saveResult [] "abc" (minimalAggregatedResults "xception") "T0") "abc" = some rec ∧
      rec.results = minimalAggregatedResults "xception" ∧ rec.task_id = "abc" ∧ rec.timestamp = "T0" :=
  C9_roundtrip [] "abc" (minimalAggregatedResults "xception") "T0" (by simp)

/-! ## Claim C4 — extraction failure modes -/

/-- An openable, zero-frame video used by the C4 counterexample. -/
def videoEmptyC4 : VideoFile :=
  { file_exists := true, opens := true, fps := 30, frame_count := 0,
    width := 64, height := 64, frames := [] }

/-- Counterexample to C4 as stated: an openable file that yields zero
frames does not raise an extraction error — `_extract_frames_sync`
returns an empty sample sequence. -/
theorem C4_counterexample :
    (extractFramesSync defaultSettings (fun f => f) videoEmptyC4).toOption.map
        FramesData.frames = some [] ∧
    (extractFramesSync defaultSettings (fun f => f) videoEmptyC4).toOption.map
        FramesData.timestamps = some [] := by
  constructor
  · rfl
  · rfl

/-- Claim C4 as amended: extraction fails when the file does not exist or
cannot be opened; an openable file that yields zero frames succeeds and
returns an empty sample sequence (no error is raised). -/
theorem C4_extraction (cfg : Settings) (preprocess : Frame → Frame) (v : VideoFile) :
    (v.file_exists = false →
      extractFramesSync cfg preprocess v = Except.error "Video file not found") ∧
    (v.file_exists = true → v.opens = false →
      extractFramesSync cfg preprocess v = Except.error "Could not open video file") ∧
    (v.file_exists = true → v.opens = true → v.frames = [] →
      ∃ fd, extractFramesSync cfg preprocess v = Except.ok fd ∧
        fd.frames = [] ∧ fd.timestamps = []) := by
  refine ⟨?_, ?_, ?_⟩
  · intro h
    simp [extractFramesSync, h]
  · intro h1 h2
    simp [extractFramesSync, h1, h2]
  · intro h1 h2 h3
    refine ⟨{ frames := [], timestamps := [],
              metadata :=
                { original_fps := v.fps
                  total_frames := v.frame_count
                  duration := if 0 < v.fps then (v.frame_count : ℚ) / v.fps else 0
                  resolution := (v.width, v.height)
                  extracted_frames := 0
                  extraction_rate := cfg.FRAME_EXTRACTION_RATE
                  frame_interval :=
                    (max 1 (ratTrunc (v.fps / (cfg.FRAME_EXTRACTION_RATE : ℚ)))).toNat } },
            ?_, rfl, rfl⟩
    simp [extractFramesSync, h1, h2, h3, extractLoop]

/-- Witness for the amended C4 at concrete video files: a missing file,
an unopenable file, and an openable zero-frame file. -/
theorem C4_witness :
    (extractFramesSync defaultSettings (fun f => f)
        { videoEmptyC4 with file_exists := false } = Except.error "Video file not found") ∧
    (extractFramesSync defaultSettings (fun f => f)
        { videoEmptyC4 with opens := false } = Except.error "Could not open video file") ∧
    (∃ fd, extractFramesSync defaultSettings (fun f => f) videoEmptyC4 = Except.ok fd ∧
      fd.frames = [] ∧ fd.timestamps = []) :=
  ⟨(C4_extraction defaultSettings (fun f => f) { videoEmptyC4 with file_exists := false }).1 rfl,
   (C4_extraction defaultSettings (fun f => f) { videoEmptyC4 with opens := false }).2.1 rfl rfl,
   (C4_extraction defaultSettings (fun f => f) videoEmptyC4).2.2 rfl rfl rfl⟩

/-! ## Claim C5 — all-zero certainties in the Aggregator -/

/-- Video metadata used by the C5 counterexample. -/
def videoMetaC5 : VideoMetadata :=
  { original_fps := 30, total_frames := 30, duration := 1, resolution := (224, 224),
    extracted_frames := 1, extraction_rate := 1, frame_interval := 30 }

/-- Detection results with one scored sample of certainty 0, used by the
C5 counterexample. -/
def detectionResultsC5 : DetectionResults :=
  { model_used := "xception", total_frames := 1,
    frame_results := [{ frame_index := 0, timestamp := 0, prediction := 3/10,
                        confidence := 0, label := "real" }],
    video_metadata := videoMetaC5,
    detection_metadata := .real (1/2) 32 }

/-- Counterexample to C5 as stated: on a non-empty sample sequence whose
certainties are all zero the Aggregator does not fall back to the plain
mean — `numpy.average` raises on the zero weight sum and the stage
fails. -/
theorem C5_counterexample :
    aggregateResults defaultSettings (fun q => q) detectionResultsC5 =
      Except.error "Result aggregation failed: Weights sum to zero" := by
  simp [aggregateResults, detectionResultsC5]

/-- Claim C5 as amended: for every non-empty ScoredSample sequence in
which every certainty equals zero, the Aggregator fails with the
division-by-zero error from the certainty-weighted average; there is no
plain-mean fallback (the Orchestrator's minimal-report fallback handles
the failure instead). -/
theorem C5_zero_certainties (cfg : Settings) (sqrtFn : ℚ → ℚ)
    (dr : DetectionResults) (hne : dr.frame_results ≠ [])
    (hzero : ∀ r ∈ dr.frame_results, r.confidence = 0) :
    aggregateResults cfg sqrtFn dr =
      Except.error "Result aggregation failed: Weights sum to zero" := by
  have hempty : dr.frame_results.isEmpty = false := by
    cases h : dr.frame_results with
    | nil => exact absurd h hne
    | cons a l => rfl
  have hsum : (dr.frame_results.map FrameResult.confidence).sum = 0 := by
    apply List.sum_eq_zero
    intro x hx
    obtain ⟨r, hr, rfl⟩ := List.mem_map.mp hx
    exact hzero r hr
  simp [aggregateResults, hempty, hsum]

/-- Witness for the amended C5 at the concrete all-zero-certainty input. -/
theorem C5_witness :
    aggregateResults defaultSettings (fun q => q) detectionResultsC5 =
      Except.error "Result aggregation failed: Weights sum to zero" :=
  C5_zero_certainties defaultSettings (fun q => q) detectionResultsC5 (by decide)
    (by intro r hr; simp [detectionResultsC5] at hr; simp [hr])

/-! ## Claim C6 — top_suspicious selection

The code sorts with Python's stable `sorted(..., reverse=True)`
(`sortDescPred`).  The spec side is stated independently: "the 5
ScoredSamples with the highest raw score, ties broken by original index
ascending" is the sort by the strict priority `specPriority`
(`sortTopSpec`).  When the original indices are strictly increasing
along the list — which is how `detect_deepfake` numbers its frame
results — the two sorts coincide. -/

/-- Spec-side ordering: `x` ranks strictly before `y` when it has the
higher raw score, or an equal score and the smaller original index. -/
def specPriority (x y : FrameResult) : Prop :=
  y.prediction < x.prediction ∨
    (x.prediction = y.prediction ∧ x.frame_index < y.frame_index)

instance specPriorityDecidable (x y : FrameResult) : Decidable (specPriority x y) := by
  unfold specPriority
  exact inferInstance

/-- Insertion step of the spec-side sort. -/
def insertTopSpec (x : FrameResult) : List FrameResult → List FrameResult
  | [] => [x]
  | y :: ys => if specPriority x y then x :: y :: ys else y :: insertTopSpec x ys

/-- The spec-side sort: by raw score descending, ties broken by original
index ascending. -/
def sortTopSpec : List FrameResult → List FrameResult
  | [] => []
  | x :: xs => insertTopSpec x (sortTopSpec xs)

theorem insertDescPred_perm (x : FrameResult) (l : List FrameResult) :
    List.Perm (insertDescPred x l) (x :: l) := by
  induction l with
  | nil => exact List.Perm.refl _
  | cons y ys ih =>
    by_cases h : y.prediction ≤ x.prediction
    · simp [insertDescPred, h]
    · simp only [insertDescPred, if_neg h]
      exact (ih.cons y).trans (List.Perm.swap x y ys)

theorem sortDescPred_perm (l : List FrameResult) : List.Perm (sortDescPred l) l := by
  induction l with
  | nil => exact List.Perm.refl _
  | cons x xs ih => exact (insertDescPred_perm x (sortDescPred xs)).trans (ih.cons x)

theorem insertTopSpec_perm (x : FrameResult) (l : List FrameResult) :
    List.Perm (insertTopSpec x l) (x :: l) := by
  induction l with
  | nil => exact List.Perm.refl _
  | cons y ys ih =>
    by_cases h : specPriority x y
    · simp [insertTopSpec, h]
    · simp only [insertTopSpec, if_neg h]
      exact (ih.cons y).trans (List.Perm.swap x y ys)

theorem sortTopSpec_perm (l : List FrameResult) : List.Perm (sortTopSpec l) l := by
  induction l with
  | nil => exact List.Perm.refl _
  | cons x xs ih => exact (insertTopSpec_perm x (sortTopSpec xs)).trans (ih.cons x)

theorem insertDescPred_pairwise (x : FrameResult) (l : List FrameResult)
    (h : List.Pairwise (fun a b => b.prediction ≤ a.prediction) l) :
    List.Pairwise (fun a b => b.prediction ≤ a.prediction) (insertDescPred x l) := by
  induction l with
  | nil => simp [insertDescPred]
  | cons y ys ih =>
    rcases List.pairwise_cons.mp h with ⟨h1, h2⟩
    by_cases hle : y.prediction ≤ x.prediction
    · simp only [insertDescPred, if_pos hle]
      refine List.pairwise_cons.mpr ⟨?_, h⟩
      intro z hz
      rcases List.mem_cons.mp hz with rfl | hz2
      · exact hle
      · exact (h1 z hz2).trans hle
    · simp only [insertDescPred, if_neg hle]
      refine List.pairwise_cons.mpr ⟨?_, ih h2⟩
      intro z hz
      rcases List.mem_cons.mp ((insertDescPred_perm x ys).mem_iff.mp hz) with hzx | hz2
      · rw [hzx]
        exact (not_le.mp hle).le
      · exact h1 z hz2

/-- The code-side sort really is descending in the raw score (so its
first five elements are five highest-scoring samples). -/
theorem sortDescPred_sorted (l : List FrameResult) :
    List.Pairwise (fun a b => b.prediction ≤ a.prediction) (sortDescPred l) := by
  induction l with
  | nil => simp [sortDescPred]
  | cons x xs ih => exact insertDescPred_pairwise x _ ih

theorem insertDescPred_eq_insertTopSpec (x : FrameResult) (l : List FrameResult)
    (h : ∀ y ∈ l, x.frame_index < y.frame_index) :
    insertDescPred x l = insertTopSpec x l := by
  induction l with
  | nil => rfl
  | cons y ys ih =>
    have hxy : x.frame_index < y.frame_index := h y (List.mem_cons_self y ys)
    by_cases hle : y.prediction ≤ x.prediction
    · have hsp : specPriority x y := by
        rcases lt_or_eq_of_le hle with hlt | heq
        · exact Or.inl hlt
        · exact Or.inr ⟨heq.symm, hxy⟩
      simp [insertDescPred, insertTopSpec, hle, hsp]
    · have hsp : ¬ specPriority x y := by
        intro hs
        rcases hs with hlt | ⟨heq, _⟩
        · exact hle hlt.le
        · exact hle heq.ge
      simp [insertDescPred, insertTopSpec, hle, hsp,
        ih (fun z hz => h z (List.mem_cons_of_mem y hz))]

/-- On a list with strictly increasing original indices, the stable
descending sort of the code equals the spec-side
score-descending/index-ascending sort. -/
theorem sortDescPred_eq_sortTopSpec (l : List FrameResult)
    (h : List.Pairwise (fun a b => a.frame_index < b.frame_index) l) :
    sortDescPred l = sortTopSpec l := by
  induction l with
  | nil => rfl
  | cons x xs ih =>
    rcases List.pairwise_cons.mp h with ⟨h1, h2⟩
    simp only [sortDescPred, sortTopSpec, ih h2]
    exact insertDescPred_eq_insertTopSpec x (sortTopSpec xs)
      (fun y hy => h1 y ((sortTopSpec_perm xs).mem_iff.mp hy))

/-- A successful aggregation's `suspicious_frames` field is the reduced
take-5 of the code-side sort. -/
theorem aggregateResults_ok_suspicious (cfg : Settings) (sqrtFn : ℚ → ℚ)
    (dr : DetectionResults) (s : Summary)
    (h : aggregateResults cfg sqrtFn dr = Except.ok s) :
    s.suspicious_frames = (topSuspiciousFrames dr.frame_results).map reduceSuspicious := by
  by_cases h1 : dr.frame_results.isEmpty
  · simp [aggregateResults, h1] at h
  · by_cases h2 : (dr.frame_results.map FrameResult.confidence).sum = 0
    · simp [aggregateResults, h1, h2] at h
    · simp only [aggregateResults, h1, Bool.false_eq_true, if_false, h2, if_neg,
        not_false_iff, Except.ok.injEq] at h
      rw [← h]

/-- Claim C6: for every non-empty scored-sample sequence whose original
indices strictly increase (as produced by the scoring stage), a
successful aggregation's `top_suspicious` list has exactly
`min 5 n` entries, equal to the samples sorted by raw score descending
with ties broken by original index ascending, each reduced by
`reduceSuspicious` to exactly the four fields timestamp / index /
score-percentage / certainty-percentage. -/
theorem C6_top_suspicious (cfg : Settings) (sqrtFn : ℚ → ℚ) (dr : DetectionResults)
    (hidx : List.Pairwise (fun a b => a.frame_index < b.frame_index) dr.frame_results)
    (s : Summary) (h : aggregateResults cfg sqrtFn dr = Except.ok s) :
    s.suspicious_frames.length = min 5 dr.frame_results.length ∧
    s.suspicious_frames = ((sortTopSpec dr.frame_results).take 5).map reduceSuspicious := by
  have hs := aggregateResults_ok_suspicious cfg sqrtFn dr s h
  constructor
  · rw [hs]
    simp only [List.length_map, topSuspiciousFrames, List.length_take,
      (sortDescPred_perm dr.frame_results).length_eq]
  · rw [hs]
    simp [topSuspiciousFrames, sortDescPred_eq_sortTopSpec dr.frame_results hidx]

/-- Concrete inputs for the C6 witness. -/
def frC6a : FrameResult :=
  { frame_index := 0, timestamp := 0, prediction := 1, confidence := 1, label := "fake" }

def frC6b : FrameResult :=
  { frame_index := 1, timestamp := 1, prediction := 1, confidence := 1, label := "fake" }

def videoMetaC6 : VideoMetadata :=
  { original_fps := 30, total_frames := 60, duration := 2, resolution := (224, 224),
    extracted_frames := 2, extraction_rate := 1, frame_interval := 30 }

def drC6 : DetectionResults :=
  { model_used := "xception", total_frames := 2, frame_results := [frC6a, frC6b],
    video_metadata := videoMetaC6, detection_metadata := .real (1/2) 32 }

/-- The summary `aggregate_results` produces on `drC6`. -/
def summaryC6 : Summary :=
  { prediction := "fake"
    confidence := 100
    fake_probability := 100
    statistics :=
      { total_frames := 2, fake_frames := 2, real_frames := 0, fake_percentage := 100,
        mean_prediction := 1, std_prediction := 0, mean_confidence := 1 }
    suspicious_frames :=
      [{ timestamp := 0, frame_index := 0, fake_probability := 100, confidence := 100 },
       { timestamp := 1, frame_index := 1, fake_probability := 100, confidence := 100 }]
    model_info :=
      { model_used := "xception", threshold := 1/2, total_frames_analyzed := 2 } }

/-- Witness for C6 at a concrete two-sample run with tied scores. -/
theorem C6_witness :
    summaryC6.suspicious_frames.length = min 5 drC6.frame_results.length ∧
    summaryC6.suspicious_frames =
      ((sortTopSpec drC6.frame_results).take 5).map reduceSuspicious :=
  C6_top_suspicious defaultSettings (fun q => q) drC6
    (by norm_num [drC6, frC6a, frC6b, List.pairwise_cons])
    summaryC6
    (by
      norm_num [aggregateResults, drC6, frC6a, frC6b, summaryC6, npMean, pyRound,
        roundHalfEven, topSuspiciousFrames, sortDescPred, insertDescPred, reduceSuspicious,
        defaultSettings]
      all_goals decide)

/-! ## Claim C7 — batching preserves count and order -/

theorem chunks_flatten_aux {α : Type} (bs n : ℕ) :
    ∀ l : List α, l.length ≤ n → (chunks bs l).flatten = l := by
  induction n with
  | zero =>
    intro l h
    cases l with
    | nil => simp [chunks]
    | cons x xs => simp at h
  | succ n ih =>
    intro l h
    cases l with
    | nil => simp [chunks]
    | cons x xs =>
      have hlen : xs.length ≤ n := by
        simp only [List.length_cons] at h
        omega
      rw [chunks]
      simp only [List.flatten_cons]
      rw [ih (xs.drop (bs - 1)) (by simp only [List.length_drop]; omega)]
      simp [List.take_append_drop]

/-- The batches `frames[i:i+batch_size]` concatenate back to the input:
chunking loses nothing and keeps order. -/
theorem chunks_flatten {α : Type} (bs : ℕ) (l : List α) :
    (chunks bs l).flatten = l :=
  chunks_flatten_aux bs l.length l le_rfl

/-- If the Scorer returns one (score, certainty) pair per input sample of
each batch, the batched inference produces one pair per input frame. -/
theorem runInferenceSync_length (predict : List Frame → List (ℚ × ℚ)) (bs : ℕ)
    (frames : List Frame) (hp : ∀ b, (predict b).length = b.length) :
    (runInferenceSync predict bs frames).length = frames.length := by
  unfold runInferenceSync
  calc ((chunks bs frames).map predict).flatten.length
      = (((chunks bs frames).map predict).map List.length).sum :=
        List.length_flatten _
    _ = ((chunks bs frames).map List.length).sum := by
        rw [List.map_map]
        exact congrArg List.sum (List.map_congr_left fun b _ => hp b)
    _ = (chunks bs frames).flatten.length := (List.length_flatten _).symm
    _ = frames.length := by rw [chunks_flatten]

/-- A per-sample Scorer seen through the batching loop acts exactly like
a map over all frames: batching is transparent to order and content. -/
theorem runInferenceSync_map (f : Frame → ℚ × ℚ) (bs : ℕ) (frames : List Frame) :
    runInferenceSync (fun b => b.map f) bs frames = frames.map f := by
  unfold runInferenceSync
  rw [← List.map_flatten, chunks_flatten]

theorem mkFrameResults_map_index (cfg : Settings) (ps : List (ℚ × ℚ))
    (ts : List ℚ) :
    (mkFrameResults cfg ps ts).map FrameResult.frame_index =
      List.range (min ps.length ts.length) := by
  unfold mkFrameResults
  rw [List.map_map]
  have hc : (FrameResult.frame_index ∘ fun p : ℕ × (ℚ × ℚ) × ℚ =>
      ({ frame_index := p.1, timestamp := p.2.2, prediction := p.2.1.1,
         confidence := p.2.1.2,
         label := if p.2.1.1 > cfg.MODEL_CONFIDENCE_THRESHOLD then "fake" else "real" }
        : FrameResult)) = Prod.fst := rfl
  rw [hc, List.enum_map_fst, List.length_zip]

theorem mkFrameResults_map_timestamp (cfg : Settings) (ps : List (ℚ × ℚ))
    (ts : List ℚ) (h : ts.length ≤ ps.length) :
    (mkFrameResults cfg ps ts).map FrameResult.timestamp = ts := by
  unfold mkFrameResults
  rw [List.map_map]
  have hc : (FrameResult.timestamp ∘ fun p : ℕ × (ℚ × ℚ) × ℚ =>
      ({ frame_index := p.1, timestamp := p.2.2, prediction := p.2.1.1,
         confidence := p.2.1.2,
         label := if p.2.1.1 > cfg.MODEL_CONFIDENCE_THRESHOLD then "fake" else "real" }
        : FrameResult)) = (Prod.snd ∘ Prod.snd) := rfl
  rw [hc, ← List.map_map, List.enum_map_snd, List.map_snd_zip ps ts h]

/-- Claim C7: over `n` extracted samples, a Scorer returning one pair per
input sample of each batch yields exactly `n` scored samples; the i-th
scored sample carries frame index `i` and the i-th extracted timestamp;
and for a per-sample Scorer the batched loop equals a plain map over the
frames in extraction order. -/
theorem C7_scoring_count_order (cfg : Settings)
    (predict : List Frame → List (ℚ × ℚ)) (fd : FramesData)
    (_hbs : 0 < cfg.BATCH_SIZE)
    (hp : ∀ b, (predict b).length = b.length)
    (hts : fd.timestamps.length = fd.frames.length) :
    (runInferenceSync predict cfg.BATCH_SIZE fd.frames).length = fd.frames.length ∧
    (mkFrameResults cfg (runInferenceSync predict cfg.BATCH_SIZE fd.frames)
        fd.timestamps).length = fd.frames.length ∧
    (mkFrameResults cfg (runInferenceSync predict cfg.BATCH_SIZE fd.frames)
        fd.timestamps).map FrameResult.frame_index = List.range fd.frames.length ∧
    (mkFrameResults cfg (runInferenceSync predict cfg.BATCH_SIZE fd.frames)
        fd.timestamps).map FrameResult.timestamp = fd.timestamps ∧
    (∀ f : Frame → ℚ × ℚ, predict = (fun b => b.map f) →
      runInferenceSync predict cfg.BATCH_SIZE fd.frames = fd.frames.map f) := by
  have hlen := runInferenceSync_length predict cfg.BATCH_SIZE fd.frames hp
  have hmin : min (runInferenceSync predict cfg.BATCH_SIZE fd.frames).length
      fd.timestamps.length = fd.frames.length := by
    rw [hlen, hts]
    exact min_self _
  refine ⟨hlen, ?_, ?_, ?_, ?_⟩
  · have := congrArg List.length
      (mkFrameResults_map_index cfg (runInferenceSync predict cfg.BATCH_SIZE fd.frames)
        fd.timestamps)
    simpa [List.length_map, List.length_range, hmin] using this
  · rw [mkFrameResults_map_index, hmin]
  · exact mkFrameResults_map_timestamp cfg _ fd.timestamps (by rw [hlen, hts])
  · intro f hf
    rw [hf]
    exact runInferenceSync_map f cfg.BATCH_SIZE fd.frames

/-- Concrete inputs for the C7 witness. -/
def videoMetaC7 : VideoMetadata :=
  { original_fps := 30, total_frames := 90, duration := 3, resolution := (224, 224),
    extracted_frames := 3, extraction_rate := 1, frame_interval := 30 }

def fdC7 : FramesData :=
  { frames := [[0], [0], [0]], timestamps := [0, 1, 2], metadata := videoMetaC7 }

/-- Witness for C7 at a concrete three-frame run with a constant
per-sample Scorer. -/
theorem C7_witness :
    (runInferenceSync (fun b => b.map (fun _ => ((1 : ℚ), (1 : ℚ)))) defaultSettings.BATCH_SIZE
        fdC7.frames).length = fdC7.frames.length ∧
    (mkFrameResults defaultSettings
        (runInferenceSync (fun b => b.map (fun _ => ((1 : ℚ), (1 : ℚ)))) defaultSettings.BATCH_SIZE
          fdC7.frames) fdC7.timestamps).length = fdC7.frames.length ∧
    (mkFrameResults defaultSettings
        (runInferenceSync (fun b => b.map (fun _ => ((1 : ℚ), (1 : ℚ)))) defaultSettings.BATCH_SIZE
          fdC7.frames) fdC7.timestamps).map FrameResult.frame_index =
      List.range fdC7.frames.length ∧
    (mkFrameResults defaultSettings
        (runInferenceSync (fun b => b.map (fun _ => ((1 : ℚ), (1 : ℚ)))) defaultSettings.BATCH_SIZE
          fdC7.frames) fdC7.timestamps).map FrameResult.timestamp = fdC7.timestamps ∧
    (∀ f : Frame → ℚ × ℚ, (fun b : List Frame => b.map (fun _ => ((1 : ℚ), (1 : ℚ)))) = (fun b => b.map f) →
      runInferenceSync (fun b => b.map (fun _ => ((1 : ℚ), (1 : ℚ)))) defaultSettings.BATCH_SIZE
          fdC7.frames = fdC7.frames.map f) :=
  C7_scoring_count_order defaultSettings (fun b => b.map (fun _ => ((1 : ℚ), (1 : ℚ)))) fdC7
    (by decide) (fun b => by simp) rfl

/-! ## Claims C1 and C10 — orchestrator degradation paths -/

/-- Re-inserting under the same key replaces the earlier insertion. -/
theorem dictInsert_dictInsert (tasks : TaskMap) (k : String) (v w : TaskRec) :
    dictInsert (dictInsert tasks k v) k w = dictInsert tasks k w := by
  induction tasks with
  | nil => simp [dictInsert]
  | cons p rest ih =>
    obtain ⟨k0, v0⟩ := p
    by_cases h : k0 = k
    · simp [dictInsert, h]
    · simp [dictInsert, h, ih]

/-- Aggregating the mock detection results (empty `frame_results`) always
fails. -/
theorem aggregateResults_mock (cfg : Settings) (sqrtFn : ℚ → ℚ)
    (model_name : String) (fd : FramesData) (err : String) :
    aggregateResults cfg sqrtFn (mockDetectionResults model_name fd err) =
      Except.error "Result aggregation failed: No frame results to aggregate" := rfl

/-- When the task exists and extraction succeeded, the pipeline run always
completes the task (progress 100) with whatever the degradation-aware
detection and aggregation stages produced, and persists that report. -/
theorem processVideoBackground_ok (cfg : Settings) (sqrtFn : ℚ → ℚ)
    (fd : FramesData) (detectRes : FramesData → Except String DetectionResults)
    (tasks : TaskMap) (store : Store) (task_id model_name now : String)
    (t : TaskRec) (h : dictLookup tasks task_id = some t) :
    processVideoBackground cfg sqrtFn (Except.ok fd) detectRes tasks store
        task_id model_name now =
      (dictInsert tasks task_id
        { t with status := "completed", progress := 100, updated_at := now,
                 results := some (aggregationStep cfg sqrtFn model_name
                   (detectionStep detectRes model_name fd)),
                 completed_at := some now },
       saveResult store task_id
         (aggregationStep cfg sqrtFn model_name (detectionStep detectRes model_name fd))
         now) := by
  unfold processVideoBackground
  rw [updateTaskStatus_some tasks task_id "processing" 10 AddData.none now t h]
  dsimp only
  rw [updateTaskStatus_some _ task_id "processing" 30 AddData.none now _
    (dictLookup_insert_self tasks task_id _)]
  dsimp only
  rw [updateTaskStatus_some _ task_id "processing" 80 AddData.none now _
    (dictLookup_insert_self _ task_id _)]
  dsimp only
  rw [completeTask, updateTaskStatus_some _ task_id "completed" 100
    (AddData.completedData _ now) now _ (dictLookup_insert_self _ task_id _)]
  dsimp only [applyAdd]
  rw [dictInsert_dictInsert, dictInsert_dictInsert, dictInsert_dictInsert]

/-- Counterexample inputs for C1: two extracted frames, scoring fails. -/
def videoMetaC1 : VideoMetadata :=
  { original_fps := 30, total_frames := 60, duration := 2, resolution := (224, 224),
    extracted_frames := 2, extraction_rate := 1, frame_interval := 30 }

def fdC1 : FramesData :=
  { frames := [[0], [0]], timestamps := [0, 1], metadata := videoMetaC1 }

def taskRecC1 : TaskRec :=
  { task_id := "t1", filename := "v.mp4", file_path := "/up/v.mp4",
    model_name := "xception", status := "uploaded", progress := 0,
    created_at := "T0", updated_at := "T0", results := Option.none,
    completed_at := Option.none, error := Option.none, failed_at := Option.none }

/-- Counterexample to C1 as stated: with two extracted samples and a
failing scoring stage the task does complete, but the degraded report's
sample count (`total_frames_analyzed`, like `statistics.total_frames`)
is 0 — it does not reflect the two extracted samples. -/
theorem C1_counterexample :
    ((dictLookup (processVideoBackground defaultSettings (fun q => q) (Except.ok fdC1)
        (fun _ => Except.error "Model xception not available")
        [("t1", taskRecC1)] [] "t1" "xception" "T1").1 "t1").map
      (fun r => (r.status, r.results.map (fun s => (s.model_info.total_frames_analyzed,
        s.statistics.total_frames))))) = some ("completed", some (0, 0)) ∧
    fdC1.frames.length = 2 := by
  constructor
  · rfl
  · rfl

/-- Claim C1 as amended: whenever extraction succeeds and the scoring
stage fails, the task is completed — never failed — with the degraded
synthetic report (`prediction = "uncertain"`, all statistics zero), and
the report's sample-count fields are 0 rather than the number of
extracted samples. -/
theorem C1_scoring_failure_degrades (cfg : Settings) (sqrtFn : ℚ → ℚ)
    (fd : FramesData) (e : String) (tasks : TaskMap) (store : Store)
    (task_id model_name now : String) (t : TaskRec)
    (h : dictLookup tasks task_id = some t) :
    processVideoBackground cfg sqrtFn (Except.ok fd) (fun _ => Except.error e)
        tasks store task_id model_name now =
      (dictInsert tasks task_id
        { t with status := "completed", progress := 100, updated_at := now,
                 results := some (minimalAggregatedResults model_name),
                 completed_at := some now },
       saveResult store task_id (minimalAggregatedResults model_name) now) ∧
    (minimalAggregatedResults model_name).statistics =
      { total_frames := 0, fake_frames := 0, real_frames := 0, fake_percentage := 0,
        mean_prediction := 0, std_prediction := 0, mean_confidence := 0 } ∧
    (minimalAggregatedResults model_name).prediction = "uncertain" := by
  refine ⟨?_, rfl, rfl⟩
  rw [processVideoBackground_ok cfg sqrtFn fd _ tasks store task_id model_name now t h]
  have hmin : aggregationStep cfg sqrtFn model_name
      (detectionStep (fun _ => Except.error e) model_name fd) =
      minimalAggregatedResults model_name := by
    simp [detectionStep, aggregationStep, aggregateResults_mock]
  rw [hmin]

/-- Witness for the amended C1 at a concrete run. -/
theorem C1_witness :
    processVideoBackground defaultSettings (fun q => q) (Except.ok fdC1)
        (fun _ => Except.error "boom") [("t1", taskRecC1)] [] "t1" "xception" "T1" =
      (dictInsert [("t1", taskRecC1)] "t1"
        { taskRecC1 with status := "completed", progress := 100, updated_at := "T1",
                         results := some (minimalAggregatedResults "xception"),
                         completed_at := some "T1" },
       saveResult [] "t1" (minimalAggregatedResults "xception") "T1") ∧
    (minimalAggregatedResults "xception").statistics =
      { total_frames := 0, fake_frames := 0, real_frames := 0, fake_percentage := 0,
        mean_prediction := 0, std_prediction := 0, mean_confidence := 0 } ∧
    (minimalAggregatedResults "xception").prediction = "uncertain" :=
  C1_scoring_failure_degrades defaultSettings (fun q => q) fdC1 "boom"
    [("t1", taskRecC1)] [] "t1" "xception" "T1" taskRecC1 rfl

/-- Concrete inputs for the C10 witness. -/
def videoMetaC10 : VideoMetadata :=
  { original_fps := 30, total_frames := 90, duration := 3, resolution := (224, 224),
    extracted_frames := 3, extraction_rate := 1, frame_interval := 30 }

def fdC10 : FramesData :=
  { frames := [[0], [0], [0]], timestamps := [0, 1, 2], metadata := videoMetaC10 }

def taskRecC10 : TaskRec :=
  { task_id := "t10", filename := "w.mp4", file_path := "/up/w.mp4",
    model_name := "mesonet", status := "uploaded", progress := 0,
    created_at := "T0", updated_at := "T0", results := Option.none,
    completed_at := Option.none, error := Option.none, failed_at := Option.none }

/-- Claim C10: whenever the aggregation stage fails and the Orchestrator
substitutes its minimal fallback report, that report's
`model_info.threshold` is the hard-coded 0.5 and its
`total_frames_analyzed` is 0 — for every configured
`MODEL_CONFIDENCE_THRESHOLD` and every number of extracted samples. -/
theorem C10_fallback_constants (cfg : Settings) (sqrtFn : ℚ → ℚ)
    (fd : FramesData) (detectRes : FramesData → Except String DetectionResults)
    (tasks : TaskMap) (store : Store) (task_id model_name now err : String)
    (t : TaskRec) (h : dictLookup tasks task_id = some t)
    (hagg : aggregateResults cfg sqrtFn (detectionStep detectRes model_name fd) =
      Except.error err) :
    dictLookup (processVideoBackground cfg sqrtFn (Except.ok fd) detectRes tasks store
        task_id model_name now).1 task_id =
      some { t with status := "completed", progress := 100, updated_at := now,
                    results := some (minimalAggregatedResults model_name),
                    completed_at := some now } ∧
    (minimalAggregatedResults model_name).model_info.threshold = 1/2 ∧
    (minimalAggregatedResults model_name).model_info.total_frames_analyzed = 0 := by
  refine ⟨?_, rfl, rfl⟩
  rw [processVideoBackground_ok cfg sqrtFn fd detectRes tasks store task_id model_name now t h]
  have hmin : aggregationStep cfg sqrtFn model_name
      (detectionStep detectRes model_name fd) = minimalAggregatedResults model_name := by
    simp [aggregationStep, hagg]
  simp [hmin, dictLookup_insert_self]

/-- Witness for C10 at a concrete run whose aggregation stage fails, with
a configured threshold different from the fallback's 0.5. -/
theorem C10_witness :
    dictLookup (processVideoBackground
        { defaultSettings with MODEL_CONFIDENCE_THRESHOLD := 7/10 } (fun q => q)
        (Except.ok fdC10) (fun _ => Except.error "scorer down")
        [("t10", taskRecC10)] [] "t10" "mesonet" "T1").1 "t10" =
      some { taskRecC10 with status := "completed", progress := 100, updated_at := "T1",
                             results := some (minimalAggregatedResults "mesonet"),
                             completed_at := some "T1" } ∧
    (minimalAggregatedResults "mesonet").model_info.threshold = 1/2 ∧
    (minimalAggregatedResults "mesonet").model_info.total_frames_analyzed = 0 :=
  C10_fallback_constants { defaultSettings with MODEL_CONFIDENCE_THRESHOLD := 7/10 }
    (fun q => q) fdC10 (fun _ => Except.error "scorer down") [("t10", taskRecC10)] []
    "t10" "mesonet" "T1" "Result aggregation failed: No frame results to aggregate"
    taskRecC10 rfl rfl

end Sherlock
